import Mathlib

/-!
Verification of the menu toggle controller in `src/static/script.js`.

The script resolves two element references once at load time:

  const menuIcon = document.getElementById('menu-icon');
  const nav = document.querySelector('nav');

and installs two click handlers:

  menuIcon.addEventListener('click', () => { nav.classList.toggle('active'); });
  document.addEventListener('click', (e) => {
    if (!nav.contains(e.target) && !menuIcon.contains(e.target)) {
      nav.classList.remove('active');
    }
  });

We embed the mutable state (the class lists of the two elements) as a
structure of token lists, the DOMTokenList operations `toggle`/`remove` as
list functions with the DOM semantics, and the environment (which click
targets are contained in the nav subtree and in the icon subtree) as a pair
of Boolean predicates on target identifiers.  A click on a target inside the
icon fires the icon listener first (the event then bubbles to the document
listener), which `dispatchClick` reflects.
-/

/-- DOMTokenList.toggle: if the token is present remove it, otherwise
append it (DOM token lists are ordered and duplicate-free, so removal is
a filter). -/
def classToggle (tok : String) (l : List String) : List String :=
  if tok ∈ l then l.filter (fun c => c != tok) else l ++ [tok]

/-- DOMTokenList.remove: delete the token from the list. -/
def classRemove (tok : String) (l : List String) : List String :=
  l.filter (fun c => c != tok)

/-- The mutable element state the script can reach: the class list of the
navigation element and the class list of the icon element. -/
structure PageState where
  navClasses : List String
  iconClasses : List String
deriving Repr, DecidableEq

/-- The containment environment: `navContains t` models
`nav.contains(target)` and `iconContains t` models
`menuIcon.contains(target)` for a click target identified by `t`. -/
structure DomEnv where
  navContains : Nat → Bool
  iconContains : Nat → Bool

/-- The icon click listener: `nav.classList.toggle('active')`. -/
def onIconActivate (s : PageState) : PageState :=
  { s with navClasses := classToggle "active" s.navClasses }

/-- The document click listener:
`if (!nav.contains(e.target) && !menuIcon.contains(e.target))
   nav.classList.remove('active')`. -/
def onDocumentActivate (env : DomEnv) (target : Nat) (s : PageState) : PageState :=
  if !env.navContains target && !env.iconContains target then
    { s with navClasses := classRemove "active" s.navClasses }
  else s

/-- One full click dispatch: if the target is inside the icon element the
icon listener fires, then the event bubbles to the document listener. -/
def dispatchClick (env : DomEnv) (target : Nat) (s : PageState) : PageState :=
  onDocumentActivate env target
    (if env.iconContains target then onIconActivate s else s)

/-- Run a finite sequence of clicks (list of targets) through the page. -/
def runClicks (env : DomEnv) : List Nat → PageState → PageState
  | [], s => s
  | t :: ts, s => runClicks env ts (dispatchClick env t s)

/-- The marker is present exactly when `"active"` is in the nav class list. -/
def MenuOpen (s : PageState) : Prop :=
  "active" ∈ s.navClasses

instance (s : PageState) : Decidable (MenuOpen s) := by
  unfold MenuOpen; infer_instance

/-- Abstract activation events of the specification's state machine. -/
inductive AEvent where
  | icon
  | insideNav
  | outside
deriving Repr, DecidableEq

/-- Classify a concrete click target as an abstract event: inside the icon
subtree it is an icon activation; otherwise inside the nav subtree it is an
in-menu click; otherwise it is an outside click. -/
def classify (env : DomEnv) (t : Nat) : AEvent :=
  if env.iconContains t then .icon
  else if env.navContains t then .insideNav
  else .outside

/-- The specification's two-state machine, with `true` = OPEN and
`false` = CLOSED: icon activation toggles, an outside activation forces
CLOSED, an in-menu activation is a no-op. -/
def aStep : AEvent → Bool → Bool
  | .icon, b => !b
  | .insideNav, b => b
  | .outside, _ => false

/-- Run the abstract machine over a sequence of abstract events. -/
def aRun : List AEvent → Bool → Bool
  | [], b => b
  | e :: es, b => aRun es (aStep e b)

/-! ### Basic facts about the class-list operations -/

theorem notMem_classRemove (tok : String) (l : List String) :
    tok ∉ classRemove tok l := by
  simp [classRemove, List.mem_filter]

theorem classRemove_eq_self {tok : String} {l : List String} (h : tok ∉ l) :
    classRemove tok l = l := by
  rw [classRemove, List.filter_eq_self]
  intro a ha
  simp only [bne_iff_ne, ne_eq]
  exact fun e => h (e ▸ ha)

theorem mem_classToggle (tok : String) (l : List String) :
    tok ∈ classToggle tok l ↔ tok ∉ l := by
  unfold classToggle
  split
  · next h => simp [List.mem_filter, h]
  · next h => simp [h]

theorem classRemove_classToggle (tok : String) (l : List String) :
    classRemove tok (classToggle tok l) = classRemove tok l := by
  unfold classToggle classRemove
  split
  · simp [List.filter_filter]
  · simp [List.filter_append]

theorem classRemove_idem (tok : String) (l : List String) :
    classRemove tok (classRemove tok l) = classRemove tok l := by
  unfold classRemove
  simp [List.filter_filter]

/-! ### Step lemmas for the dispatch function -/

theorem menuOpen_onIconActivate (s : PageState) :
    MenuOpen (onIconActivate s) ↔ ¬ MenuOpen s := by
  simp only [MenuOpen, onIconActivate]
  exact mem_classToggle "active" s.navClasses

theorem onDocumentActivate_inside {env : DomEnv} {t : Nat} (s : PageState)
    (h : env.navContains t = true ∨ env.iconContains t = true) :
    onDocumentActivate env t s = s := by
  unfold onDocumentActivate
  rcases h with h | h <;> simp [h]

theorem onDocumentActivate_outside {env : DomEnv} {t : Nat} (s : PageState)
    (hn : env.navContains t = false) (hi : env.iconContains t = false) :
    onDocumentActivate env t s =
      { s with navClasses := classRemove "active" s.navClasses } := by
  unfold onDocumentActivate
  simp [hn, hi]

theorem dispatchClick_step (env : DomEnv) (t : Nat) (s : PageState) (b : Bool)
    (hb : MenuOpen s ↔ b = true) :
    MenuOpen (dispatchClick env t s) ↔ aStep (classify env t) b = true := by
  unfold dispatchClick classify
  cases hi : env.iconContains t with
  | true =>
      rw [if_pos rfl, if_pos rfl,
        onDocumentActivate_inside _ (Or.inr hi)]
      rw [menuOpen_onIconActivate, hb]
      simp [aStep]
  | false =>
      rw [if_neg (by simp), if_neg (by simp)]
      cases hn : env.navContains t with
      | true =>
          rw [onDocumentActivate_inside _ (Or.inl hn), if_pos rfl]
          simpa [aStep] using hb
      | false =>
          rw [onDocumentActivate_outside _ hn hi, if_neg (by simp)]
          simp only [MenuOpen, aStep]
          simpa using notMem_classRemove "active" s.navClasses

theorem runClicks_refines (env : DomEnv) :
    ∀ (ts : List Nat) (s : PageState) (b : Bool),
      (MenuOpen s ↔ b = true) →
      (MenuOpen (runClicks env ts s) ↔ aRun (ts.map (classify env)) b = true)
  | [], s, b, hb => by simpa [runClicks, aRun] using hb
  | t :: ts, s, b, hb => by
      rw [runClicks, List.map_cons, aRun]
      exact runClicks_refines env ts (dispatchClick env t s) (aStep (classify env t) b)
        (dispatchClick_step env t s b hb)

/-! ### Claim theorems -/

/-- C1: invoking the icon activation handler flips the presence of the
active marker in the navigation element's class set — if the marker is
present it is removed, and if it is absent it is added; the handler is a
total function of the state (no error conditions, no separate return
value). -/
theorem C1_icon_activate_flips_marker (s : PageState) :
    ("active" ∈ (onIconActivate s).navClasses ↔ "active" ∉ s.navClasses) ∧
    ("active" ∈ s.navClasses →
      (onIconActivate s).navClasses = s.navClasses.filter (fun c => c != "active")) ∧
    ("active" ∉ s.navClasses →
      (onIconActivate s).navClasses = s.navClasses ++ ["active"]) := by
  refine ⟨mem_classToggle "active" s.navClasses, ?_, ?_⟩
  · intro h
    simp [onIconActivate, classToggle, h]
  · intro h
    simp [onIconActivate, classToggle, h]

/-- C2: the document activation handler removes the active marker exactly
when the event's target is contained in neither the navigation element nor
the icon element, and in every other case it leaves the whole state
unchanged; after a removal the marker is indeed absent. -/
theorem C2_document_activate_removes_iff_outside (env : DomEnv) (t : Nat) (s : PageState) :
    (onDocumentActivate env t s =
      if env.navContains t = false ∧ env.iconContains t = false then
        { s with navClasses := classRemove "active" s.navClasses }
      else s) ∧
    "active" ∉ classRemove "active" s.navClasses := by
  constructor
  · unfold onDocumentActivate
    rcases hn : env.navContains t <;> rcases hi : env.iconContains t <;> simp
  · exact notMem_classRemove "active" s.navClasses

/-- C3: starting from a CLOSED state (marker absent), running any finite
sequence of clicks through the two handlers leaves the marker present
exactly when the specification's two-state machine (icon activation
toggles, outside activation forces CLOSED, in-menu activation is a no-op),
started at CLOSED and fed the same events, ends at OPEN. -/
theorem C3_run_refines_state_machine (env : DomEnv) (ts : List Nat) (s : PageState)
    (h : "active" ∉ s.navClasses) :
    ("active" ∈ (runClicks env ts s).navClasses ↔
      aRun (ts.map (classify env)) false = true) := by
  exact runClicks_refines env ts s false (by simpa [MenuOpen] using h)

/-- C3 witness: a concrete run — nav subtree is target 1, icon is target 2;
clicking the icon then outside starts and ends CLOSED, matching the
abstract machine. -/
theorem C3_run_refines_state_machine_witness :
    ("active" ∉ (PageState.mk [] []).navClasses) ∧
    ("active" ∈ (runClicks (DomEnv.mk (fun t => t == 1) (fun t => t == 2))
        [2, 0] (PageState.mk [] [])).navClasses ↔
      aRun ([2, 0].map (classify (DomEnv.mk (fun t => t == 1) (fun t => t == 2))))
        false = true) :=
  ⟨by simp, C3_run_refines_state_machine _ [2, 0] _ (by simp)⟩

theorem runClicks_replicate_icon (env : DomEnv) {t : Nat}
    (hi : env.iconContains t = true) :
    ∀ (n : Nat) (s : PageState),
      ("active" ∈ (runClicks env (List.replicate n t) s).navClasses ↔
        (Odd n ↔ "active" ∉ s.navClasses))
  | 0, s => by
      simp only [List.replicate, runClicks, Nat.odd_iff]
      have : ¬ (0 % 2 = 1) := by decide
      tauto
  | n + 1, s => by
      rw [List.replicate_succ, runClicks]
      have hd : dispatchClick env t s = onIconActivate s := by
        unfold dispatchClick
        rw [if_pos hi, onDocumentActivate_inside _ (Or.inr hi)]
      rw [hd, runClicks_replicate_icon env hi n (onIconActivate s)]
      have htog : "active" ∉ (onIconActivate s).navClasses ↔
          "active" ∈ s.navClasses := by
        have := mem_classToggle "active" s.navClasses
        simp only [onIconActivate] at *
        tauto
      rw [htog]
      rw [Nat.odd_add_one]
      have : Decidable (Odd n) := by rw [Nat.odd_iff]; infer_instance
      tauto

/-- C4: starting CLOSED, after a sequence of N clicks on a target inside
the icon element (and no other events) the active marker is present if and
only if N is odd. -/
theorem C4_icon_clicks_parity (env : DomEnv) (t n : Nat) (s : PageState)
    (hi : env.iconContains t = true) (h : "active" ∉ s.navClasses) :
    ("active" ∈ (runClicks env (List.replicate n t) s).navClasses ↔ Odd n) := by
  rw [runClicks_replicate_icon env hi n s]
  tauto

/-- C4 witness: three icon clicks from the empty class list leave the
marker present, and three is odd. -/
theorem C4_icon_clicks_parity_witness :
    ((DomEnv.mk (fun _ => false) (fun _ => true)).iconContains 0 = true ∧
      "active" ∉ (PageState.mk [] []).navClasses) ∧
    ("active" ∈ (runClicks (DomEnv.mk (fun _ => false) (fun _ => true))
        (List.replicate 3 0) (PageState.mk [] [])).navClasses ↔ Odd 3) :=
  ⟨⟨rfl, by simp⟩, C4_icon_clicks_parity _ 0 3 _ rfl (by simp)⟩

/-- C5: a click whose target lies inside the icon element is a net toggle:
the icon listener toggles and the document listener is a no-op, so the full
dispatch equals the icon handler alone; in particular from OPEN such a
click yields CLOSED. -/
theorem C5_icon_click_net_toggle (env : DomEnv) (t : Nat) (s : PageState)
    (hi : env.iconContains t = true) :
    dispatchClick env t s = onIconActivate s ∧
    ("active" ∈ s.navClasses → "active" ∉ (dispatchClick env t s).navClasses) := by
  have hd : dispatchClick env t s = onIconActivate s := by
    unfold dispatchClick
    rw [if_pos hi, onDocumentActivate_inside _ (Or.inr hi)]
  refine ⟨hd, fun h hm => ?_⟩
  rw [hd] at hm
  exact (mem_classToggle "active" s.navClasses).mp hm h

/-- C5 witness: with the marker present, a click on the icon itself
(target 2) closes the menu. -/
theorem C5_icon_click_net_toggle_witness :
    ((DomEnv.mk (fun t => t == 1) (fun t => t == 2)).iconContains 2 = true) ∧
    (dispatchClick (DomEnv.mk (fun t => t == 1) (fun t => t == 2)) 2
        (PageState.mk ["active"] []) =
      onIconActivate (PageState.mk ["active"] []) ∧
    ("active" ∈ (PageState.mk ["active"] []).navClasses →
      "active" ∉ (dispatchClick (DomEnv.mk (fun t => t == 1) (fun t => t == 2)) 2
        (PageState.mk ["active"] [])).navClasses)) :=
  ⟨rfl, C5_icon_click_net_toggle _ 2 _ rfl⟩

/-- C6: for an event whose target is outside both the navigation and icon
subtrees, the document handler keeps an absent marker absent, and applying
it twice with the same target yields the same state as applying it once. -/
theorem C6_outside_click_closed_noop (env : DomEnv) (t : Nat) (s : PageState)
    (hn : env.navContains t = false) (hi : env.iconContains t = false) :
    ("active" ∉ s.navClasses →
      "active" ∉ (onDocumentActivate env t s).navClasses) ∧
    onDocumentActivate env t (onDocumentActivate env t s) =
      onDocumentActivate env t s := by
  rw [onDocumentActivate_outside s hn hi,
    onDocumentActivate_outside _ hn hi]
  exact ⟨fun _ => notMem_classRemove "active" s.navClasses,
    by simp [classRemove_idem]⟩

/-- C6 witness: target 0 is outside both subtrees; with the marker absent
it stays absent, and a second identical click changes nothing. -/
theorem C6_outside_click_closed_noop_witness :
    ((DomEnv.mk (fun t => t == 1) (fun t => t == 2)).navContains 0 = false ∧
      (DomEnv.mk (fun t => t == 1) (fun t => t == 2)).iconContains 0 = false) ∧
    (("active" ∉ (PageState.mk ["open"] []).navClasses →
      "active" ∉ (onDocumentActivate (DomEnv.mk (fun t => t == 1) (fun t => t == 2)) 0
        (PageState.mk ["open"] [])).navClasses) ∧
    onDocumentActivate (DomEnv.mk (fun t => t == 1) (fun t => t == 2)) 0
        (onDocumentActivate (DomEnv.mk (fun t => t == 1) (fun t => t == 2)) 0
          (PageState.mk ["open"] [])) =
      onDocumentActivate (DomEnv.mk (fun t => t == 1) (fun t => t == 2)) 0
        (PageState.mk ["open"] [])) :=
  ⟨⟨rfl, rfl⟩, C6_outside_click_closed_noop _ 0 _ rfl rfl⟩

/-! ### Null-checked handler semantics

In JavaScript, `getElementById` and `querySelector` may return `null`; the
handlers then throw a `TypeError` at the first property access on the null
reference.  `Option Unit` models whether each lookup succeeded, and the
checked handlers reproduce where the source would throw, including the
short-circuit of `&&`: `menuIcon.contains` is only evaluated when
`!nav.contains(e.target)` is `true`. -/

/-- The icon listener with a possibly-null `nav` reference:
`nav.classList.toggle` throws when `nav` is null. -/
def onIconActivateChecked (navRef : Option Unit) (s : PageState) :
    Except String PageState :=
  match navRef with
  | none => Except.error "TypeError: nav is null"
  | some _ => Except.ok (onIconActivate s)

/-- The document listener with possibly-null references: `nav.contains`
throws when `nav` is null; `menuIcon.contains` throws when `menuIcon` is
null, but only when reached past the short-circuiting `&&`. -/
def onDocumentActivateChecked (iconRef navRef : Option Unit) (env : DomEnv)
    (t : Nat) (s : PageState) : Except String PageState :=
  match navRef with
  | none => Except.error "TypeError: nav is null"
  | some _ =>
    if env.navContains t then Except.ok s
    else
      match iconRef with
      | none => Except.error "TypeError: menuIcon is null"
      | some _ =>
        if env.iconContains t then Except.ok s
        else Except.ok { s with navClasses := classRemove "active" s.navClasses }

/-- C7: when both element lookups succeed, neither handler can fail — every
invocation returns normally, and agrees with the total handler semantics.
(A missing reference at initialization is the sole failure mode and is not
handled by this code.) -/
theorem C7_handlers_total_when_lookups_succeed (iconRef navRef : Option Unit)
    (env : DomEnv) (t : Nat) (s : PageState)
    (hIcon : iconRef = some ()) (hNav : navRef = some ()) :
    onIconActivateChecked navRef s = Except.ok (onIconActivate s) ∧
    onDocumentActivateChecked iconRef navRef env t s =
      Except.ok (onDocumentActivate env t s) := by
  subst hIcon hNav
  refine ⟨rfl, ?_⟩
  unfold onDocumentActivateChecked onDocumentActivate
  rcases hn : env.navContains t <;> rcases hi : env.iconContains t <;> simp [hn, hi]

/-- C7 witness: with both lookups succeeding, a concrete outside click is
handled without error by both handlers. -/
theorem C7_handlers_total_when_lookups_succeed_witness :
    ((some () : Option Unit) = some () ∧ (some () : Option Unit) = some ()) ∧
    (onIconActivateChecked (some ()) (PageState.mk ["active"] []) =
      Except.ok (onIconActivate (PageState.mk ["active"] [])) ∧
    onDocumentActivateChecked (some ()) (some ())
        (DomEnv.mk (fun t => t == 1) (fun t => t == 2)) 0
        (PageState.mk ["active"] []) =
      Except.ok (onDocumentActivate (DomEnv.mk (fun t => t == 1) (fun t => t == 2)) 0
        (PageState.mk ["active"] []))) :=
  ⟨⟨rfl, rfl⟩, C7_handlers_total_when_lookups_succeed _ _ _ 0 _ rfl rfl⟩

/-- C8: both handlers (and the full dispatch) are deterministic — the
result depends on nothing but the prior state and the containment of the
event's target in the navigation and icon subtrees, so two runs from equal
states with equal containment relations produce equal states. -/
theorem C8_handlers_deterministic (env1 env2 : DomEnv) (t1 t2 : Nat)
    (s1 s2 : PageState) (hs : s1 = s2)
    (hn : env1.navContains t1 = env2.navContains t2)
    (hi : env1.iconContains t1 = env2.iconContains t2) :
    onIconActivate s1 = onIconActivate s2 ∧
    onDocumentActivate env1 t1 s1 = onDocumentActivate env2 t2 s2 ∧
    dispatchClick env1 t1 s1 = dispatchClick env2 t2 s2 := by
  subst hs
  refine ⟨rfl, ?_, ?_⟩ <;>
    simp [onDocumentActivate, dispatchClick, hn, hi]

/-- C8 witness: two different environments that agree on the containment of
their respective targets drive the handlers to the same results. -/
theorem C8_handlers_deterministic_witness :
    ((PageState.mk ["active"] []) = (PageState.mk ["active"] []) ∧
      (DomEnv.mk (fun _ => false) (fun _ => false)).navContains 0 =
        (DomEnv.mk (fun t => t == 5) (fun t => t == 6)).navContains 7 ∧
      (DomEnv.mk (fun _ => false) (fun _ => false)).iconContains 0 =
        (DomEnv.mk (fun t => t == 5) (fun t => t == 6)).iconContains 7) ∧
    (onIconActivate (PageState.mk ["active"] []) =
      onIconActivate (PageState.mk ["active"] []) ∧
    onDocumentActivate (DomEnv.mk (fun _ => false) (fun _ => false)) 0
        (PageState.mk ["active"] []) =
      onDocumentActivate (DomEnv.mk (fun t => t == 5) (fun t => t == 6)) 7
        (PageState.mk ["active"] []) ∧
    dispatchClick (DomEnv.mk (fun _ => false) (fun _ => false)) 0
        (PageState.mk ["active"] []) =
      dispatchClick (DomEnv.mk (fun t => t == 5) (fun t => t == 6)) 7
        (PageState.mk ["active"] [])) :=
  ⟨⟨rfl, rfl, rfl⟩, C8_handlers_deterministic _ _ 0 7 _ _ rfl rfl rfl⟩

/-- C9: frame property — each handler leaves the icon element untouched
and changes the nav class list only at the `"active"` token: filtering
`"active"` out of the class list before and after gives the same list
(so every other class keeps its presence, multiplicity and order), and
membership of any other class is preserved. -/
theorem C9_handlers_frame (env : DomEnv) (t : Nat) (s : PageState) :
    ((onIconActivate s).iconClasses = s.iconClasses ∧
      (onDocumentActivate env t s).iconClasses = s.iconClasses) ∧
    (classRemove "active" (onIconActivate s).navClasses =
        classRemove "active" s.navClasses ∧
      classRemove "active" (onDocumentActivate env t s).navClasses =
        classRemove "active" s.navClasses) ∧
    (∀ c : String, c ≠ "active" →
      ((c ∈ (onIconActivate s).navClasses ↔ c ∈ s.navClasses) ∧
        (c ∈ (onDocumentActivate env t s).navClasses ↔ c ∈ s.navClasses))) := by
  have hdoc : (onDocumentActivate env t s).iconClasses = s.iconClasses ∧
      classRemove "active" (onDocumentActivate env t s).navClasses =
        classRemove "active" s.navClasses := by
    unfold onDocumentActivate
    split
    · exact ⟨rfl, classRemove_idem "active" s.navClasses⟩
    · exact ⟨rfl, rfl⟩
  refine ⟨⟨rfl, hdoc.1⟩,
    ⟨classRemove_classToggle "active" s.navClasses, hdoc.2⟩, ?_⟩
  intro c hc
  have key : ∀ l1 l2 : List String,
      classRemove "active" l1 = classRemove "active" l2 →
      (c ∈ l1 ↔ c ∈ l2) := by
    intro l1 l2 hl
    have h1 : (c ∈ classRemove "active" l1) ↔ c ∈ l1 := by
      simp [classRemove, List.mem_filter, hc]
    have h2 : (c ∈ classRemove "active" l2) ↔ c ∈ l2 := by
      simp [classRemove, List.mem_filter, hc]
    rw [← h1, ← h2, hl]
  exact ⟨key _ _ (classRemove_classToggle "active" s.navClasses),
    key _ _ hdoc.2⟩

/-- C9 witness: on a concrete state with an extra class, both handlers
keep the icon classes and every non-active nav class intact. -/
theorem C9_handlers_frame_witness :
    ((onIconActivate (PageState.mk ["menu", "active"] ["ic"])).iconClasses =
        (PageState.mk ["menu", "active"] ["ic"]).iconClasses ∧
      (onDocumentActivate (DomEnv.mk (fun _ => false) (fun _ => false)) 0
          (PageState.mk ["menu", "active"] ["ic"])).iconClasses =
        (PageState.mk ["menu", "active"] ["ic"]).iconClasses) ∧
    (classRemove "active"
        (onIconActivate (PageState.mk ["menu", "active"] ["ic"])).navClasses =
        classRemove "active" (PageState.mk ["menu", "active"] ["ic"]).navClasses ∧
      classRemove "active"
        (onDocumentActivate (DomEnv.mk (fun _ => false) (fun _ => false)) 0
          (PageState.mk ["menu", "active"] ["ic"])).navClasses =
        classRemove "active" (PageState.mk ["menu", "active"] ["ic"]).navClasses) ∧
    (∀ c : String, c ≠ "active" →
      ((c ∈ (onIconActivate (PageState.mk ["menu", "active"] ["ic"])).navClasses ↔
          c ∈ (PageState.mk ["menu", "active"] ["ic"]).navClasses) ∧
        (c ∈ (onDocumentActivate (DomEnv.mk (fun _ => false) (fun _ => false)) 0
            (PageState.mk ["menu", "active"] ["ic"])).navClasses ↔
          c ∈ (PageState.mk ["menu", "active"] ["ic"]).navClasses))) :=
  C9_handlers_frame (DomEnv.mk (fun _ => false) (fun _ => false)) 0
    (PageState.mk ["menu", "active"] ["ic"])

/-- C10: the document handler never adds the active marker — an absent
marker stays absent through it — and the only way a full click dispatch can
turn an absent marker present is a target inside the icon element. -/
theorem C10_document_never_opens (env : DomEnv) (t : Nat) (s : PageState)
    (h : "active" ∉ s.navClasses) :
    "active" ∉ (onDocumentActivate env t s).navClasses ∧
    ("active" ∈ (dispatchClick env t s).navClasses →
      env.iconContains t = true) := by
  constructor
  · unfold onDocumentActivate
    split
    · simpa using notMem_classRemove "active" s.navClasses
    · exact h
  · intro hm
    by_contra hic
    have hi : env.iconContains t = false := by
      simpa using hic
    unfold dispatchClick at hm
    rw [if_neg (by simp [hi])] at hm
    unfold onDocumentActivate at hm
    rcases hn : env.navContains t with _ | _
    · rw [if_pos (by simp [hn, hi])] at hm
      exact notMem_classRemove "active" s.navClasses (by simpa using hm)
    · rw [if_neg (by simp [hn])] at hm
      exact h hm

/-- C10 witness: from a CLOSED state, an outside click keeps the marker
absent, and had the dispatch opened the menu the target would have been in
the icon. -/
theorem C10_document_never_opens_witness :
    ("active" ∉ (PageState.mk ["menu"] []).navClasses) ∧
    ("active" ∉ (onDocumentActivate (DomEnv.mk (fun t => t == 1) (fun t => t == 2)) 0
        (PageState.mk ["menu"] [])).navClasses ∧
    ("active" ∈ (dispatchClick (DomEnv.mk (fun t => t == 1) (fun t => t == 2)) 0
        (PageState.mk ["menu"] [])).navClasses →
      (DomEnv.mk (fun t => t == 1) (fun t => t == 2)).iconContains 0 = true)) :=
  ⟨by simp, C10_document_never_opens _ 0 _ (by simp)⟩

/-- C1 witness: on a concrete open state, the icon handler removes the
marker by filtering it out. -/
theorem C1_icon_activate_flips_marker_witness :
    ("active" ∈ (onIconActivate (PageState.mk ["active", "menu"] [])).navClasses ↔
      "active" ∉ (PageState.mk ["active", "menu"] []).navClasses) ∧
    ("active" ∈ (PageState.mk ["active", "menu"] []).navClasses →
      (onIconActivate (PageState.mk ["active", "menu"] [])).navClasses =
        (PageState.mk ["active", "menu"] []).navClasses.filter (fun c => c != "active")) ∧
    ("active" ∉ (PageState.mk ["active", "menu"] []).navClasses →
      (onIconActivate (PageState.mk ["active", "menu"] [])).navClasses =
        (PageState.mk ["active", "menu"] []).navClasses ++ ["active"]) :=
  C1_icon_activate_flips_marker (PageState.mk ["active", "menu"] [])

/-- C2 witness: an outside click (target 0) on a concrete open state takes
the removal branch and the marker is gone afterwards. -/
theorem C2_document_activate_removes_iff_outside_witness :
    (onDocumentActivate (DomEnv.mk (fun t => t == 1) (fun t => t == 2)) 0
        (PageState.mk ["active"] []) =
      if (DomEnv.mk (fun t => t == 1) (fun t => t == 2)).navContains 0 = false ∧
          (DomEnv.mk (fun t => t == 1) (fun t => t == 2)).iconContains 0 = false then
        { PageState.mk ["active"] [] with
            navClasses := classRemove "active" (PageState.mk ["active"] []).navClasses }
      else PageState.mk ["active"] []) ∧
    "active" ∉ classRemove "active" (PageState.mk ["active"] []).navClasses :=
  C2_document_activate_removes_iff_outside
    (DomEnv.mk (fun t => t == 1) (fun t => t == 2)) 0 (PageState.mk ["active"] [])
